import Mathlib

/-!
Verification of the SRS VSA user-analytics frontend.

This file gives a shallow embedding, in Lean 4, of the request-building,
fetching, filtering, authentication-guard and rendering logic of the
repository (the `frontend` sources: `lib/api.ts`, `app` page / `Home`
component, `components/FilterControls.tsx`, `components/AuthGuard.tsx`),
together with theorems settling the stated properties of that code.

Conventions of the embedding:
- TypeScript strings are Lean `String`; optional / possibly-`undefined`
  string values are `Option String`, with JavaScript truthiness (absent or
  empty is falsy) made explicit where the source tests it.
- The network is an oracle `net : String → Option R` mapping a request URL
  to `some` response body (an `ok` response of abstract payload type `R`)
  or `none` (a non-`ok` response); a `fetch`-and-check-`response.ok`
  sequence becomes a lookup in the oracle.
- Asynchronous control flow is sequentialized: `await` chains become
  ordinary sequencing, and `Promise.all` becomes a fail-fast combination
  in list order (which rejection is reported when several inputs fail is
  immaterial to every theorem below).
-/

/-- The `AnalyticsFilters` record that every fetch operation receives
(declared in `frontend/lib/types`, reconstructed from its uses in
`frontend/lib/api.ts` and the `Home` component): required `startDate`,
`endDate`, `productContext`, `userType` strings, plus `environment` and
`userId` which may be absent.  The source tests the optional fields with
`if (filters.environment)` / `if (filters.userId)`, i.e. JavaScript
truthiness, so they are modelled as `Option String` with `some ""`
being falsy like `none`. -/
structure AnalyticsFilters where
  startDate : String
  endDate : String
  productContext : String
  userType : String
  environment : Option String := none
  userId : Option String := none
deriving DecidableEq

/-- JavaScript truthiness of an optional string: truthy exactly when it is
present and non-empty. -/
def strTruthy : Option String → Bool
  | none => false
  | some s => s != ""

/-- Upper-case hexadecimal digit, as used by percent-encoding. -/
def hexUpper (n : Nat) : Char :=
  if n < 10 then Char.ofNat (48 + n) else Char.ofNat (55 + n)

/-- Percent-encoding of one byte, `%XY` with upper-case hex digits. -/
def percentByte (b : Nat) : String :=
  String.mk ['%', hexUpper (b / 16), hexUpper (b % 16)]

/-- The UTF-8 byte sequence of one character (code points below `0x80`
are one byte, below `0x800` two, below `0x10000` three, otherwise four). -/
def utf8Bytes (c : Char) : List Nat :=
  let n := c.toNat
  if n < 0x80 then [n]
  else if n < 0x800 then [0xC0 + n / 0x40, 0x80 + n % 0x40]
  else if n < 0x10000 then
    [0xE0 + n / 0x1000, 0x80 + (n / 0x40) % 0x40, 0x80 + n % 0x40]
  else
    [0xF0 + n / 0x40000, 0x80 + (n / 0x1000) % 0x40,
     0x80 + (n / 0x40) % 0x40, 0x80 + n % 0x40]

/-- One byte of the `application/x-www-form-urlencoded` serializer used by
`URLSearchParams.toString()`: ASCII alphanumerics and `*`, `-`, `.`, `_`
pass through, a space becomes `+`, every other byte is percent-encoded. -/
def formUrlEncodedByte (b : Nat) : String :=
  if (48 ≤ b ∧ b ≤ 57) ∨ (65 ≤ b ∧ b ≤ 90) ∨ (97 ≤ b ∧ b ≤ 122)
      ∨ b = 42 ∨ b = 45 ∨ b = 46 ∨ b = 95 then
    String.mk [Char.ofNat b]
  else if b = 32 then "+"
  else percentByte b

/-- `application/x-www-form-urlencoded` serialization of one component, as
`URLSearchParams.toString()` applies to each name and value. -/
def urlencode (s : String) : String :=
  String.join (s.data.map (fun c => String.join ((utf8Bytes c).map formUrlEncodedByte)))

/-- The ordered name/value pairs accumulated by `buildQueryString` in
`frontend/lib/api.ts`: the four required fields seed the `URLSearchParams`,
then `environment` and `user_id` are appended when truthy. -/
def buildQueryParams (filters : AnalyticsFilters) : List (String × String) :=
  let params := [("start_date", filters.startDate),
                 ("end_date", filters.endDate),
                 ("product_context", filters.productContext),
                 ("user_type", filters.userType)]
  let params :=
    match filters.environment with
    | some e => if e != "" then params ++ [("environment", e)] else params
    | none => params
  match filters.userId with
  | some u => if u != "" then params ++ [("user_id", u)] else params
  | none => params

/-- `buildQueryString` from `frontend/lib/api.ts`: the
`URLSearchParams.toString()` serialization of the accumulated pairs. -/
def buildQueryString (filters : AnalyticsFilters) : String :=
  String.intercalate "&"
    ((buildQueryParams filters).map (fun p => urlencode p.1 ++ "=" ++ urlencode p.2))

/-- `API_URL` from `frontend/lib/api.ts` (the `NEXT_PUBLIC_API_URL`
environment default; the concrete host never matters to any theorem). -/
def API_URL : String := "http://localhost:8080"

/-- The URL each fetch operation in `frontend/lib/api.ts` requests:
`API_URL ++ "/analytics/" ++ path ++ "?" ++ buildQueryString filters`. -/
def analyticsUrl (path : String) (filters : AnalyticsFilters) : String :=
  API_URL ++ "/analytics/" ++ path ++ "?" ++ buildQueryString filters

/-- `getAuthHeaders` from `frontend/lib/api.ts`: always a `Content-Type`
header, plus an `Authorization` bearer header when the module-level
`authToken` is truthy. -/
def getAuthHeaders : Option String → List (String × String)
  | none => [("Content-Type", "application/json")]
  | some t =>
    if t != "" then
      [("Content-Type", "application/json"), ("Authorization", "Bearer " ++ t)]
    else
      [("Content-Type", "application/json")]

/-- The request a fetch operation constructs: its URL and headers. -/
structure ApiRequest where
  url : String
  headers : List (String × String)
deriving DecidableEq

/-- The request issued by the fetch operation for the endpoint `path`,
given the current module-level `authToken` and the filters. -/
def analyticsRequest (authToken : Option String) (path : String)
    (filters : AnalyticsFilters) : ApiRequest :=
  { url := analyticsUrl path filters, headers := getAuthHeaders authToken }

/-- The filters value built in the `Home` component's `fetchData` effect:
the selected calendar dates expanded to `T00:00:00` / `T23:59:59`
whole-day bounds, the selected product context and user type, and no
`environment` or `userId` (the dashboard never sets them). -/
def mkHomeFilters (startDate endDate productContext userType : String) :
    AnalyticsFilters :=
  { startDate := startDate ++ "T00:00:00"
    endDate := endDate ++ "T23:59:59"
    productContext := productContext
    userType := userType }

/-- The sentiment-trend banding in the `Home` component:
`avg_sentiment_score > 0.05 ? "Positive" : avg_sentiment_score < -0.05 ?
"Negative" : "Neutral"`, with the score modelled as a rational. -/
def sentimentTrend (score : Rat) : String :=
  if score > 5 / 100 then "Positive"
  else if score < -(5 / 100) then "Negative"
  else "Neutral"

/-- The record returned by `fetchAllFastKPIs`: one payload per fast KPI
family, in the source's field order. -/
structure FastData (R : Type) where
  sessionMetrics : R
  volumeTrends : R
  userEngagement : R
  userRetention : R
  queryCategories : R
  returningUserBehavior : R
  userSegmentation : R
  timePatterns : R
  conversationLength : R
  platformAnalytics : R
deriving DecidableEq

/-- A single fetch operation from `frontend/lib/api.ts`: request the
endpoint's URL and, if the response is not `ok`, throw the operation's
fixed error message. -/
def fetchOp {R : Type} (net : String → Option R) (path failMessage : String)
    (filters : AnalyticsFilters) : Except String R :=
  match net (analyticsUrl path filters) with
  | some r => Except.ok r
  | none => Except.error failMessage

def fetchSessionMetrics {R : Type} (net : String → Option R)
    (filters : AnalyticsFilters) : Except String R :=
  fetchOp net "session-metrics" "Failed to fetch session metrics" filters

def fetchPainPointClustering {R : Type} (net : String → Option R)
    (filters : AnalyticsFilters) : Except String R :=
  fetchOp net "pain-point-clustering" "Failed to fetch pain point clustering" filters

def fetchVolumeTrends {R : Type} (net : String → Option R)
    (filters : AnalyticsFilters) : Except String R :=
  fetchOp net "volume-trends" "Failed to fetch volume trends" filters

def fetchUserEngagement {R : Type} (net : String → Option R)
    (filters : AnalyticsFilters) : Except String R :=
  fetchOp net "user-engagement" "Failed to fetch user engagement" filters

def fetchUserRetention {R : Type} (net : String → Option R)
    (filters : AnalyticsFilters) : Except String R :=
  fetchOp net "user-retention" "Failed to fetch user retention" filters

def fetchQueryCategories {R : Type} (net : String → Option R)
    (filters : AnalyticsFilters) : Except String R :=
  fetchOp net "query-categories" "Failed to fetch query categories" filters

def fetchReturningUserBehavior {R : Type} (net : String → Option R)
    (filters : AnalyticsFilters) : Except String R :=
  fetchOp net "returning-user-behavior" "Failed to fetch returning user behavior" filters

def fetchUserSegmentation {R : Type} (net : String → Option R)
    (filters : AnalyticsFilters) : Except String R :=
  fetchOp net "user-segmentation" "Failed to fetch user segmentation" filters

def fetchTimePatterns {R : Type} (net : String → Option R)
    (filters : AnalyticsFilters) : Except String R :=
  fetchOp net "time-patterns" "Failed to fetch time patterns" filters

def fetchConversationLength {R : Type} (net : String → Option R)
    (filters : AnalyticsFilters) : Except String R :=
  fetchOp net "conversation-length" "Failed to fetch conversation length" filters

def fetchPlatformAnalytics {R : Type} (net : String → Option R)
    (filters : AnalyticsFilters) : Except String R :=
  fetchOp net "platform-analytics" "Failed to fetch platform analytics" filters

def fetchSentimentAnalysis {R : Type} (net : String → Option R)
    (filters : AnalyticsFilters) : Except String R :=
  fetchOp net "sentiment-analysis" "Failed to fetch sentiment analysis" filters

/-- The endpoint paths requested by `fetchAllFastKPIs`, in the order its
`Promise.all` array lists them. -/
def fastKPIPaths : List String :=
  ["session-metrics", "volume-trends", "user-engagement", "user-retention",
   "query-categories", "returning-user-behavior", "user-segmentation",
   "time-patterns", "conversation-length", "platform-analytics"]

/-- The URLs requested by `fetchAllFastKPIs` for a given filters value. -/
def fastKPIUrls (filters : AnalyticsFilters) : List String :=
  fastKPIPaths.map (fun p => analyticsUrl p filters)

/-- `fetchAllFastKPIs` from `frontend/lib/api.ts`: `Promise.all` over the
ten fast KPI fetches.  `Promise.all` is fail-fast: if any input rejects
the combined promise rejects and the fulfilled siblings are discarded;
here the rejection reported is the first in list order (which of several
simultaneous failures wins is immaterial to every theorem below). -/
def fetchAllFastKPIs {R : Type} (net : String → Option R)
    (filters : AnalyticsFilters) : Except String (FastData R) := do
  let sessionMetrics ← fetchSessionMetrics net filters
  let volumeTrends ← fetchVolumeTrends net filters
  let userEngagement ← fetchUserEngagement net filters
  let userRetention ← fetchUserRetention net filters
  let queryCategories ← fetchQueryCategories net filters
  let returningUserBehavior ← fetchReturningUserBehavior net filters
  let userSegmentation ← fetchUserSegmentation net filters
  let timePatterns ← fetchTimePatterns net filters
  let conversationLength ← fetchConversationLength net filters
  let platformAnalytics ← fetchPlatformAnalytics net filters
  return { sessionMetrics, volumeTrends, userEngagement, userRetention,
           queryCategories, returningUserBehavior, userSegmentation,
           timePatterns, conversationLength, platformAnalytics }

/-- The value of an `Except` when it succeeded, `none` on failure. -/
def exceptOk {E A : Type} : Except E A → Option A
  | Except.ok a => some a
  | Except.error _ => none

/-- The `Home` component's state after its `fetchData` effect settles:
the `useState` cells it writes (`data`, `clustering`, `sentiment`, the
three loading flags, `error`). -/
structure HomeState (R : Type) where
  data : Option (FastData R)
  clustering : Option R
  sentiment : Option R
  loading : Bool
  clusteringLoading : Bool
  sentimentLoading : Bool
  error : Option String
deriving DecidableEq

/-- The outcome of one run of the `Home` component's `fetchData` effect:
the final component state together with the list of request URLs issued,
in order. -/
structure FetchOutcome (R : Type) where
  state : HomeState R
  requests : List String
deriving DecidableEq

/-- The `fetchData` effect of the `Home` component: await
`fetchAllFastKPIs` and store it in `data`, then await the clustering
fetch, then the sentiment fetch; any thrown error is caught once, stored
in `error`, and clears every loading flag.  All ten fast requests are
issued up front (`Promise.all` starts every fetch before awaiting), the
clustering request is issued only after the fast aggregate resolved, and
the sentiment request only after clustering resolved. -/
def fetchData {R : Type} (net : String → Option R) (filters : AnalyticsFilters) :
    FetchOutcome R :=
  match fetchAllFastKPIs net filters with
  | Except.error msg =>
    { state := { data := none, clustering := none, sentiment := none,
                 loading := false, clusteringLoading := false,
                 sentimentLoading := false, error := some msg }
      requests := fastKPIUrls filters }
  | Except.ok fast =>
    match fetchPainPointClustering net filters with
    | Except.error msg =>
      { state := { data := some fast, clustering := none, sentiment := none,
                   loading := false, clusteringLoading := false,
                   sentimentLoading := false, error := some msg }
        requests := fastKPIUrls filters ++ [analyticsUrl "pain-point-clustering" filters] }
    | Except.ok c =>
      match fetchSentimentAnalysis net filters with
      | Except.error msg =>
        { state := { data := some fast, clustering := some c, sentiment := none,
                     loading := false, clusteringLoading := false,
                     sentimentLoading := false, error := some msg }
          requests := fastKPIUrls filters ++
            [analyticsUrl "pain-point-clustering" filters,
             analyticsUrl "sentiment-analysis" filters] }
      | Except.ok sen =>
        { state := { data := some fast, clustering := some c, sentiment := some sen,
                     loading := false, clusteringLoading := false,
                     sentimentLoading := false, error := none }
          requests := fastKPIUrls filters ++
            [analyticsUrl "pain-point-clustering" filters,
             analyticsUrl "sentiment-analysis" filters] }

/-- The pain-point panel of the dashboard: spinner while loading, the pie
chart when clustering data arrived, otherwise the no-data placeholder. -/
inductive ClusterPanel (R : Type) where
  | spinner
  | chart (clusters : R)
  | noData
deriving DecidableEq

/-- The sentiment panel of the dashboard, with the same three shapes. -/
inductive SentimentPanel (R : Type) where
  | spinner
  | charts (sentiment : R)
  | noData
deriving DecidableEq

/-- What the `Home` component renders: the full-screen loader, the
full-screen error box, nothing (when `data` is unset), or the dashboard
with its clustering and sentiment panels. -/
inductive HomeView (R : Type) where
  | loadingScreen
  | errorScreen (message : String)
  | empty
  | dashboard (data : FastData R) (clustering : ClusterPanel R)
      (sentiment : SentimentPanel R)
deriving DecidableEq

def clusterPanel {R : Type} (st : HomeState R) : ClusterPanel R :=
  if st.clusteringLoading then ClusterPanel.spinner
  else
    match st.clustering with
    | some c => ClusterPanel.chart c
    | none => ClusterPanel.noData

def sentimentPanel {R : Type} (st : HomeState R) : SentimentPanel R :=
  if st.sentimentLoading then SentimentPanel.spinner
  else
    match st.sentiment with
    | some s => SentimentPanel.charts s
    | none => SentimentPanel.noData

/-- The render function of the `Home` component: the early returns for
`loading`, `error` and missing `data`, then the dashboard. -/
def render {R : Type} (st : HomeState R) : HomeView R :=
  if st.loading then HomeView.loadingScreen
  else
    match st.error with
    | some m => HomeView.errorScreen m
    | none =>
      match st.data with
      | none => HomeView.empty
      | some d => HomeView.dashboard d (clusterPanel st) (sentimentPanel st)

/-- The `value` attributes of the two options of the product selector in
`frontend/components/FilterControls.tsx`, in document order. -/
def productOptions : List String := ["pool", "landscape"]

/-- The `value` attributes of the three options of the user-type selector
in `frontend/components/FilterControls.tsx`, in document order. -/
def userTypeOptions : List String := ["all", "internal", "external"]

/-- The filter state the `Home` component keeps (`startDate`, `endDate`,
`productContext`, `userType` `useState` cells). -/
structure FilterState where
  startDate : String
  endDate : String
  productContext : String
  userType : String
deriving DecidableEq

/-- The initial filter state of the `Home` component (December 2025,
`pool`, `all`), which `handleReset` also restores. -/
def initialFilterState : FilterState :=
  { startDate := "2025-12-01", endDate := "2025-12-31",
    productContext := "pool", userType := "all" }

/-- One interaction with the filter controls: typing a date, choosing one
of the offered options of a `select` (identified by its index among the
rendered options, since a `select` can only emit a rendered option's
value), or pressing the reset button. -/
inductive FilterEvent where
  | setStartDate (v : String)
  | setEndDate (v : String)
  | selectProduct (i : Fin 2)
  | selectUserType (i : Fin 3)
  | reset

/-- The state transition the `FilterControls` handlers perform on the
`Home` component's state for one interaction. -/
def filterStep (st : FilterState) : FilterEvent → FilterState
  | FilterEvent.setStartDate v => { st with startDate := v }
  | FilterEvent.setEndDate v => { st with endDate := v }
  | FilterEvent.selectProduct i =>
    { st with productContext := productOptions.get ⟨i.val, i.isLt⟩ }
  | FilterEvent.selectUserType i =>
    { st with userType := userTypeOptions.get ⟨i.val, i.isLt⟩ }
  | FilterEvent.reset => initialFilterState

/-- The filter state after a sequence of interactions, starting from the
dashboard's initial state. -/
def runFilterEvents (evs : List FilterEvent) : FilterState :=
  evs.foldl filterStep initialFilterState

/-- The error taxonomy of filter validation (spec §4.1/§7). -/
inductive ValidationErrorKind where
  | missingRequiredField
  | invalidEnumerationValue
  | invalidRange
deriving DecidableEq

/-- The validated Filter Contract (spec §3): inclusive timestamps (totally
ordered, modelled as integers), a product from the closed enumeration, and
the optional secondary predicates. -/
structure FilterContract where
  startTs : Int
  endTs : Int
  product : String
  environment : Option String
  user_id : Option String
  user_type : Option String
deriving DecidableEq

/-- The raw, loosely-typed request parameters validation receives. -/
structure RawParams where
  startTs : Option Int
  endTs : Option Int
  product : Option String
  environment : Option String
  user_id : Option String
  user_type : Option String

/-- Modelled from the spec: §4.1 Filter Contract validation.  The backend
that validates and executes analytics requests is not part of this
repository snapshot (only the frontend caller is under `src`), so this
definition follows the spec's words: fail with `missing-required-field`
if `start`, `end` or `product` is absent, with `invalid-range` if
`end < start`, with `invalid-enumeration-value` if `product` or
`user_type` is outside its closed enumeration; otherwise produce the
immutable Filter Contract.  Pure validation, no I/O. -/
def validateFilters (r : RawParams) : Except ValidationErrorKind FilterContract :=
  match r.startTs, r.endTs, r.product with
  | some s, some e, some p =>
    if e < s then Except.error ValidationErrorKind.invalidRange
    else if !(productOptions.contains p) then
      Except.error ValidationErrorKind.invalidEnumerationValue
    else
      match r.user_type with
      | some ut =>
        if !(userTypeOptions.contains ut) then
          Except.error ValidationErrorKind.invalidEnumerationValue
        else
          Except.ok ⟨s, e, p, r.environment, r.user_id, some ut⟩
      | none => Except.ok ⟨s, e, p, r.environment, r.user_id, none⟩
  | _, _, _ => Except.error ValidationErrorKind.missingRequiredField

/-- Modelled from the spec: the §2 control flow for one KPI operation —
Filter Contract validation strictly precedes data access, so a query is
built and executed only from a successfully validated contract (spec §7:
validation errors never reach the data layer).  Returns the operation's
outcome together with the list of contracts actually handed to the data
layer. -/
def runKPIPipeline {Q : Type} (kpiQuery : FilterContract → Q) (r : RawParams) :
    Except ValidationErrorKind Q × List FilterContract :=
  match validateFilters r with
  | Except.error k => (Except.error k, [])
  | Except.ok fc => (Except.ok (kpiQuery fc), [fc])

/-- `ALLOWED_DOMAINS` from `frontend/components/AuthGuard.tsx`. -/
def ALLOWED_DOMAINS : List String :=
  ["srsdistribution.com", "instalily.ai", "mmhfgb.com",
   "heritagelsg.com", "heritagepsg.com"]

/-- The Auth0 user profile as the guard consumes it: possibly without an
email (`user.email` may be `undefined`). -/
structure Auth0User where
  email : Option String
deriving DecidableEq

/-- The slice of the Auth0 hook state the guard reads. -/
structure Auth0State where
  isLoading : Bool
  isAuthenticated : Bool
  user : Option Auth0User
deriving DecidableEq

/-- What the guard renders: the loading spinner, the redirect-to-login
spinner, the access-denied box (the guard also calls `logout()` on this
path), or the protected children. -/
inductive GuardView where
  | loadingView
  | redirectToLogin
  | accessDenied
  | content
deriving DecidableEq

/-- JavaScript `String.prototype.split` with a single-character separator,
on the character list of the string: `"".split(sep)` is `[""]`, and each
occurrence of the separator starts a new segment. -/
def jsSplit (sep : Char) : List Char → List (List Char)
  | [] => [[]]
  | c :: rest =>
    match jsSplit sep rest with
    | [] => [[]]
    | h :: t => if c = sep then [] :: h :: t else (c :: h) :: t

/-- `user.email.split("@")[1]?.toLowerCase()` from the guard: the second
segment of the split, lower-cased, or `undefined` when the split has
fewer than two segments.  (`Char.toLower` lower-cases ASCII letters,
which is all the comparison against the ASCII allowlist can observe.) -/
def emailDomainOf (email : List Char) : Option (List Char) :=
  ((jsSplit '@' email).get? 1).map (List.map Char.toLower)

/-- `ALLOWED_DOMAINS.some((domain) => emailDomain === domain.toLowerCase())`
from the guard; a `=== ` comparison against `undefined` is false. -/
def isAllowedDomain (emailDomain : Option (List Char)) : Bool :=
  ALLOWED_DOMAINS.any (fun d => emailDomain == some (d.data.map Char.toLower))

/-- The `AuthGuard` component from `frontend/components/AuthGuard.tsx`:
loading spinner while Auth0 initializes; redirect when unauthenticated;
then, only when a user object with a truthy email is present, the domain
check, denying (and logging out) when the checked domain is not
allowlisted; in every other case the protected children render. -/
def authGuard (st : Auth0State) : GuardView :=
  if st.isLoading then GuardView.loadingView
  else if !st.isAuthenticated then GuardView.redirectToLogin
  else
    match st.user with
    | some u =>
      match u.email with
      | some email =>
        if email != "" then
          if isAllowedDomain (emailDomainOf email.data) then GuardView.content
          else GuardView.accessDenied
        else GuardView.content
      | none => GuardView.content
    | none => GuardView.content

/-- The domain as claim C9 words it: the full substring of the email after
the FIRST `@` (everything to the right of the first `@`, further `@`s
included), or absent when the email contains no `@`. -/
def afterFirstAt (email : List Char) : Option (List Char) :=
  match email.dropWhile (fun c => c ≠ '@') with
  | [] => none
  | _ :: rest => some rest

/-- The admission predicate exactly as claim C9 states it: authenticated
and either the profile carries no email at all, or the substring of the
email after the first `@`, lower-cased, is one of the five allowlisted
domains. -/
def claimC9Admits (st : Auth0State) : Bool :=
  !st.isLoading && st.isAuthenticated &&
    (match st.user with
     | some u =>
       match u.email with
       | some email =>
         isAllowedDomain ((afterFirstAt email.data).map (List.map Char.toLower))
       | none => true
     | none => true)

/-- The filters the dashboard submits in its initial state: December 2025,
product `pool`, user type `all`, expanded to whole-day bounds. -/
def cexFilters : AnalyticsFilters :=
  mkHomeFilters "2025-12-01" "2025-12-31" "pool" "all"

/-- A network oracle on which the session-metrics response is not `ok`
while every other endpoint answers; payloads are numbers (their content is
irrelevant). -/
def cexNetFastFail : String → Option Nat := fun u =>
  if u = analyticsUrl "session-metrics" cexFilters then none else some 0

/-- A network oracle on which only the pain-point-clustering response is
not `ok`. -/
def cexNetClusterFail : String → Option Nat := fun u =>
  if u = analyticsUrl "pain-point-clustering" cexFilters then none else some 0

/-- The twelve fixed error messages of the fetch operations in
`frontend/lib/api.ts`, in source order. -/
def fetchFailMessages : List String :=
  ["Failed to fetch session metrics",
   "Failed to fetch pain point clustering",
   "Failed to fetch volume trends",
   "Failed to fetch user engagement",
   "Failed to fetch user retention",
   "Failed to fetch query categories",
   "Failed to fetch returning user behavior",
   "Failed to fetch user segmentation",
   "Failed to fetch time patterns",
   "Failed to fetch conversation length",
   "Failed to fetch platform analytics",
   "Failed to fetch sentiment analysis"]

/-- The guard state of claim C9's counterexample: an authenticated user
whose email contains two `@` characters; the substring after the first
`@` is `srsdistribution.com@attacker.com`, outside the allowlist, while
`split("@")[1]` is `srsdistribution.com`, inside it. -/
def cexAuthState : Auth0State :=
  { isLoading := false, isAuthenticated := true,
    user := some { email := some "user@srsdistribution.com@attacker.com" } }

/-- The profile carries no usable email: no user object, no email field,
or an empty (falsy) email string. -/
def emailAbsentOrEmpty (st : Auth0State) : Prop :=
  match st.user with
  | none => True
  | some u =>
    match u.email with
    | none => True
    | some e => e = ""

/-- The profile carries a non-empty email whose second `split("@")`
segment (the part between the first and second `@`, or everything after
the `@` when there is exactly one), lower-cased, is an allowlisted
domain. -/
def emailSecondSegmentAllowed (st : Auth0State) : Prop :=
  ∃ u e, st.user = some u ∧ u.email = some e ∧ e ≠ "" ∧
    ∃ d, d ∈ ALLOWED_DOMAINS ∧ emailDomainOf e.data = some d.data

/-- Lexicographic order on lists of characters is preserved by prepending
a common prefix. -/
theorem lexLt_append_left (p : List Char) {s t : List Char}
    (h : List.Lex (fun a b => a < b) s t) :
    List.Lex (fun a b => a < b) (p ++ s) (p ++ t) := by
  induction p with
  | nil => simpa using h
  | cons c cs ih => exact List.Lex.cons ih

/-- String order is preserved by prepending a common prefix. -/
theorem string_append_lt (d : String) {s t : String} (h : s < t) :
    d ++ s < d ++ t := by
  rw [String.lt_iff_toList_lt] at h ⊢
  have e1 : (d ++ s).toList = d.toList ++ s.toList := String.data_append d s
  have e2 : (d ++ t).toList = d.toList ++ t.toList := String.data_append d t
  rw [e1, e2]
  exact lexLt_append_left d.toList h

/-- C10: the `Home` component expands the two selected calendar dates to
whole-day inclusive bounds — the submitted `startDate` is the start date
at `T00:00:00` and the submitted `endDate` is the end date at `T23:59:59`
— so selecting the same date for both yields a non-empty (start strictly
below end) single-day range. -/
theorem homeFilters_whole_day (s e p u : String) :
    (mkHomeFilters s e p u).startDate = s ++ "T00:00:00" ∧
    (mkHomeFilters s e p u).endDate = e ++ "T23:59:59" ∧
    ∀ d : String,
      (mkHomeFilters d d p u).startDate < (mkHomeFilters d d p u).endDate := by
  refine ⟨rfl, rfl, fun d => ?_⟩
  have hlt : ("T00:00:00" : String) < "T23:59:59" := by
    rw [String.lt_iff_toList_lt]
    exact List.Lex.cons (List.Lex.rel (by decide))
  exact string_append_lt d hlt

/-- C10 witness: the whole-day expansion at the dashboard's default dates,
and the single-day range at a concrete date. -/
theorem homeFilters_whole_day_witness :
    (mkHomeFilters "2025-12-05" "2025-12-05" "pool" "all").startDate <
      (mkHomeFilters "2025-12-05" "2025-12-05" "pool" "all").endDate :=
  (homeFilters_whole_day "2025-12-05" "2025-12-05" "pool" "all").2.2 "2025-12-05"

/-- C4: the sentiment banding used by the dashboard classifies a score
strictly above 0.05 as positive, strictly below -0.05 as negative, and
everything in the inclusive band [-0.05, 0.05] — the boundary scores 0.05
and -0.05 included — as neutral. -/
theorem sentimentTrend_thresholds (s : Rat) :
    (sentimentTrend s = "Positive" ↔ 5 / 100 < s) ∧
    (sentimentTrend s = "Negative" ↔ s < -(5 / 100)) ∧
    (sentimentTrend s = "Neutral" ↔ -(5 / 100) ≤ s ∧ s ≤ 5 / 100) ∧
    sentimentTrend (5 / 100) = "Neutral" ∧
    sentimentTrend (-(5 / 100)) = "Neutral" := by
  have e1 : sentimentTrend (5 / 100) = "Neutral" := by
    unfold sentimentTrend
    rw [if_neg (gt_irrefl _), if_neg (by norm_num)]
  have e2 : sentimentTrend (-(5 / 100)) = "Neutral" := by
    unfold sentimentTrend
    rw [if_neg (by norm_num), if_neg (lt_irrefl _)]
  by_cases h1 : 5 / 100 < s
  · have h2 : ¬ s < -(5 / 100) := by linarith
    have hs : sentimentTrend s = "Positive" := by
      unfold sentimentTrend
      rw [if_pos h1]
    refine ⟨?_, ?_, ?_, e1, e2⟩ <;> rw [hs]
    · simp [h1]
    · constructor
      · intro h
        exact absurd h (by decide)
      · intro h
        exact absurd h h2
    · constructor
      · intro h
        exact absurd h (by decide)
      · rintro ⟨-, hb⟩
        exact absurd h1 (not_lt.mpr hb)
  · by_cases h2 : s < -(5 / 100)
    · have hs : sentimentTrend s = "Negative" := by
        unfold sentimentTrend
        rw [if_neg h1, if_pos h2]
      refine ⟨?_, ?_, ?_, e1, e2⟩ <;> rw [hs]
      · constructor
        · intro h
          exact absurd h (by decide)
        · intro h
          exact absurd h h1
      · simp [h2]
      · constructor
        · intro h
          exact absurd h (by decide)
        · rintro ⟨ha, -⟩
          exact absurd h2 (not_lt.mpr ha)
    · have hs : sentimentTrend s = "Neutral" := by
        unfold sentimentTrend
        rw [if_neg h1, if_neg h2]
      refine ⟨?_, ?_, ?_, e1, e2⟩ <;> rw [hs]
      · constructor
        · intro h
          exact absurd h (by decide)
        · intro h
          exact absurd h h1
      · constructor
        · intro h
          exact absurd h (by decide)
        · intro h
          exact absurd h h2
      · simp only [true_iff]
        exact ⟨le_of_not_lt h2, le_of_not_lt h1⟩

/-- C4 witness: the banding evaluated at the boundary score 0.05. -/
theorem sentimentTrend_thresholds_witness :
    sentimentTrend (5 / 100) = "Neutral" :=
  (sentimentTrend_thresholds 0).2.2.2.1

/-- C8: for the same filters, the request an operation constructs carries
the same URL (and hence the same query string) regardless of the
module-level mutable `authToken` state — the only ambient state of the
API module — so two invocations with an identical Filter Contract issue
bit-identical queries, and an unchanged data source, modelled as a fixed
response oracle over URLs, returns bit-identical results. -/
theorem analyticsRequest_deterministic {R : Type} (tok tok' : Option String)
    (path : String) (f : AnalyticsFilters) (dataOracle : String → R) :
    (analyticsRequest tok path f).url = (analyticsRequest tok' path f).url ∧
    dataOracle ((analyticsRequest tok path f).url)
      = dataOracle ((analyticsRequest tok' path f).url) :=
  ⟨rfl, rfl⟩

/-- C8 witness: the session-metrics request URL with and without an auth
token, at the dashboard's default filters. -/
theorem analyticsRequest_deterministic_witness :
    (analyticsRequest none "session-metrics" cexFilters).url
      = (analyticsRequest (some "token") "session-metrics" cexFilters).url :=
  (analyticsRequest_deterministic none (some "token") "session-metrics" cexFilters
    (fun u => u)).1

/-- C5: every request built through `buildQueryString` carries exactly the
filter-contract fields as parameters: `start_date`, `end_date`,
`product_context` and `user_type` are always present (in that order),
`environment` and `user_id` are appended exactly when the caller supplied
a present, non-empty value, and no other parameter ever appears; the
query string is the urlencoded serialization of exactly these pairs. -/
theorem buildQueryParams_exact_keys (f : AnalyticsFilters) :
    ((buildQueryParams f).map Prod.fst =
      ["start_date", "end_date", "product_context", "user_type"]
        ++ (if strTruthy f.environment then ["environment"] else [])
        ++ (if strTruthy f.userId then ["user_id"] else [])) ∧
    (("environment" ∈ (buildQueryParams f).map Prod.fst) ↔
      strTruthy f.environment = true) ∧
    (("user_id" ∈ (buildQueryParams f).map Prod.fst) ↔
      strTruthy f.userId = true) ∧
    buildQueryString f = String.intercalate "&"
      ((buildQueryParams f).map (fun p => urlencode p.1 ++ "=" ++ urlencode p.2)) := by
  obtain ⟨sd, ed, pc, ut, env, uid⟩ := f
  have hkeys : (buildQueryParams ⟨sd, ed, pc, ut, env, uid⟩).map Prod.fst =
      ["start_date", "end_date", "product_context", "user_type"]
        ++ (if strTruthy env then ["environment"] else [])
        ++ (if strTruthy uid then ["user_id"] else []) := by
    rcases env with - | e <;> rcases uid with - | u <;>
      simp only [buildQueryParams, strTruthy] <;>
      split_ifs <;> simp_all
  refine ⟨hkeys, ?_, ?_, rfl⟩
  · rw [hkeys]
    cases hE : strTruthy env <;> cases hU : strTruthy uid <;> simp
  · rw [hkeys]
    cases hE : strTruthy env <;> cases hU : strTruthy uid <;> simp

/-- C5 witness: at the dashboard's default filters (no environment, no
user id) exactly the four required parameters are sent. -/
theorem buildQueryParams_exact_keys_witness :
    (buildQueryParams cexFilters).map Prod.fst =
      ["start_date", "end_date", "product_context", "user_type"] := by
  have h := (buildQueryParams_exact_keys cexFilters).1
  simpa [cexFilters, mkHomeFilters, strTruthy] using h

/-- One filter interaction keeps the product and user-type selections
inside the rendered option values. -/
theorem filterStep_preserves (st : FilterState) (ev : FilterEvent)
    (h : st.productContext ∈ productOptions ∧ st.userType ∈ userTypeOptions) :
    (filterStep st ev).productContext ∈ productOptions ∧
      (filterStep st ev).userType ∈ userTypeOptions := by
  cases ev with
  | setStartDate v => exact h
  | setEndDate v => exact h
  | selectProduct i => exact ⟨List.get_mem _ _ _, h.2⟩
  | selectUserType i => exact ⟨h.1, List.get_mem _ _ _⟩
  | reset =>
    exact ⟨by simp [filterStep, initialFilterState, productOptions],
           by simp [filterStep, initialFilterState, userTypeOptions]⟩

/-- Any interaction sequence keeps the selections inside the rendered
option values. -/
theorem foldl_filter_inv (evs : List FilterEvent) (st : FilterState)
    (h : st.productContext ∈ productOptions ∧ st.userType ∈ userTypeOptions) :
    ((evs.foldl filterStep st).productContext ∈ productOptions ∧
      (evs.foldl filterStep st).userType ∈ userTypeOptions) := by
  induction evs generalizing st with
  | nil => simpa using h
  | cons ev rest ih => exact ih _ (filterStep_preserves st ev h)

/-- C6: the filter controls are confined to their closed enumerations —
the product selector offers exactly the values pool and landscape and the
user-type selector exactly all, internal and external; after any sequence
of interactions with the controls the selected product and user type are
still drawn from those enumerations, and the request filters built from
the resulting state carry exactly those selected values as the
`product_context` and `user_type` parameters. -/
theorem filter_enumerations_closed (evs : List FilterEvent) :
    productOptions = ["pool", "landscape"] ∧
    userTypeOptions = ["all", "internal", "external"] ∧
    (runFilterEvents evs).productContext ∈ productOptions ∧
    (runFilterEvents evs).userType ∈ userTypeOptions ∧
    ("product_context", (runFilterEvents evs).productContext) ∈
      buildQueryParams (mkHomeFilters (runFilterEvents evs).startDate
        (runFilterEvents evs).endDate (runFilterEvents evs).productContext
        (runFilterEvents evs).userType) ∧
    ("user_type", (runFilterEvents evs).userType) ∈
      buildQueryParams (mkHomeFilters (runFilterEvents evs).startDate
        (runFilterEvents evs).endDate (runFilterEvents evs).productContext
        (runFilterEvents evs).userType) := by
  have h0 : initialFilterState.productContext ∈ productOptions ∧
      initialFilterState.userType ∈ userTypeOptions := by
    constructor <;> simp [initialFilterState, productOptions, userTypeOptions]
  have hinv := foldl_filter_inv evs initialFilterState h0
  refine ⟨rfl, rfl, hinv.1, hinv.2, ?_, ?_⟩ <;>
    simp [buildQueryParams, mkHomeFilters]

/-- C6 witness: after selecting the second product option and the third
user-type option, the state holds landscape and external, both inside the
closed enumerations. -/
theorem filter_enumerations_closed_witness :
    (runFilterEvents [FilterEvent.selectProduct 1, FilterEvent.selectUserType 2]).productContext
      ∈ productOptions :=
  (filter_enumerations_closed
    [FilterEvent.selectProduct 1, FilterEvent.selectUserType 2]).2.2.1

/-- C7: for every raw filter input whose end timestamp is strictly before
its start timestamp — and likewise for a product outside the closed
enumeration — validation fails with a `ValidationError` and the KPI
pipeline performs no data access: the list of contracts handed to the
data layer is empty, so no analytics query with end before start is ever
issued against the data layer. -/
theorem invalid_filters_no_data_access {Q : Type} (kpiQuery : FilterContract → Q)
    (r : RawParams)
    (h : (∃ s e, r.startTs = some s ∧ r.endTs = some e ∧ e < s) ∨
         (∃ p, r.product = some p ∧ productOptions.contains p = false)) :
    (∃ k, (runKPIPipeline kpiQuery r).fst = Except.error k) ∧
    (runKPIPipeline kpiQuery r).snd = [] := by
  have hv : ∃ k, validateFilters r = Except.error k := by
    rcases h with ⟨s, e, hs, he, hlt⟩ | ⟨p, hp, hpc⟩
    · cases hps : r.product with
      | none =>
        exact ⟨ValidationErrorKind.missingRequiredField,
          by simp [validateFilters, hs, he, hps]⟩
      | some p =>
        exact ⟨ValidationErrorKind.invalidRange,
          by simp [validateFilters, hs, he, hps, hlt]⟩
    · have hpm : p ∉ productOptions := by simpa using hpc
      cases hs : r.startTs with
      | none =>
        exact ⟨ValidationErrorKind.missingRequiredField,
          by simp [validateFilters, hs]⟩
      | some s =>
        cases he : r.endTs with
        | none =>
          exact ⟨ValidationErrorKind.missingRequiredField,
            by simp [validateFilters, hs, he]⟩
        | some e =>
          by_cases hlt : e < s
          · exact ⟨ValidationErrorKind.invalidRange,
              by simp [validateFilters, hs, he, hp, hlt]⟩
          · exact ⟨ValidationErrorKind.invalidEnumerationValue,
              by simp [validateFilters, hs, he, hp, hlt, hpm]⟩
  obtain ⟨k, hk⟩ := hv
  exact ⟨⟨k, by simp [runKPIPipeline, hk]⟩, by simp [runKPIPipeline, hk]⟩

/-- C7 witness: a raw request with start 5 and end 3 is rejected before
any data access. -/
theorem invalid_filters_no_data_access_witness :
    (∃ k, (runKPIPipeline (fun fc => fc.startTs)
      { startTs := some 5, endTs := some 3, product := some "pool",
        environment := none, user_id := none, user_type := none }).fst
        = Except.error k) ∧
    (runKPIPipeline (fun fc => fc.startTs)
      { startTs := some 5, endTs := some 3, product := some "pool",
        environment := none, user_id := none, user_type := none }).snd = [] :=
  invalid_filters_no_data_access (fun fc => fc.startTs) _
    (Or.inl ⟨5, 3, rfl, rfl, by norm_num⟩)

/-- The guard's allowlist test succeeds exactly when the computed domain
equals one of the five (already lower-case) allowlisted domains. -/
theorem isAllowedDomain_eq (o : Option (List Char)) :
    isAllowedDomain o = true ↔ ∃ d, d ∈ ALLOWED_DOMAINS ∧ o = some d.data := by
  constructor
  · intro h
    rcases List.any_eq_true.mp h with ⟨d, hd, hbeq⟩
    refine ⟨d, hd, ?_⟩
    have ho : o = some (d.data.map Char.toLower) := eq_of_beq hbeq
    rw [ho]
    fin_cases hd <;> rfl
  · rintro ⟨d, hd, rfl⟩
    apply List.any_eq_true.mpr
    refine ⟨d, hd, ?_⟩
    have hlow : d.data.map Char.toLower = d.data := by
      fin_cases hd <;> rfl
    rw [hlow]
    exact beq_self_eq_true _


/-- C9 (amended): when Auth0 has finished loading, the guard renders the
protected content exactly when the user is authenticated and either the
profile carries no usable email (no user object, no email field, or an
empty email) or the second segment of the email split at `@` — the part
between the first and second `@`, not everything after the first `@` —
lower-cased, is one of the five allowlisted domains; it denies (rendering
the access-denied box and logging the user out) exactly when the user is
authenticated with a non-empty email whose checked segment is not
allowlisted. -/
theorem authGuard_admission (st : Auth0State) (hl : st.isLoading = false) :
    (authGuard st = GuardView.content ↔
      st.isAuthenticated = true ∧
        (emailAbsentOrEmpty st ∨ emailSecondSegmentAllowed st)) ∧
    (authGuard st = GuardView.accessDenied ↔
      st.isAuthenticated = true ∧
        ∃ u e, st.user = some u ∧ u.email = some e ∧ e ≠ "" ∧
          isAllowedDomain (emailDomainOf e.data) = false) := by
  obtain ⟨l, a, uo⟩ := st
  replace hl : l = false := hl
  subst hl
  cases a with
  | false => simp [authGuard, emailAbsentOrEmpty, emailSecondSegmentAllowed]
  | true =>
    cases uo with
    | none => simp [authGuard, emailAbsentOrEmpty, emailSecondSegmentAllowed]
    | some u =>
      obtain ⟨em⟩ := u
      cases em with
      | none => simp [authGuard, emailAbsentOrEmpty, emailSecondSegmentAllowed]
      | some e =>
        by_cases he : e = ""
        · subst he
          simp [authGuard, emailAbsentOrEmpty, emailSecondSegmentAllowed]
        · have he' : (e != "") = true := bne_iff_ne.mpr he
          cases hall : isAllowedDomain (emailDomainOf e.data) with
          | true =>
            have hg : authGuard ⟨false, true, some ⟨some e⟩⟩ = GuardView.content := by
              simp [authGuard, he', hall]
            rw [hg]
            constructor
            · constructor
              · intro _
                refine ⟨rfl, Or.inr ?_⟩
                obtain ⟨d, hd, hdom⟩ := (isAllowedDomain_eq _).mp hall
                exact ⟨⟨some e⟩, e, rfl, rfl, he, d, hd, hdom⟩
              · intro _
                rfl
            · constructor
              · intro hcon
                exact absurd hcon (by decide)
              · rintro ⟨-, ⟨em'⟩, e', hu', he'', -, hfalse⟩
                have h1 : some e = em' := by simpa using hu'
                subst h1
                have h2 : e = e' := by simpa using he''
                subst h2
                rw [hall] at hfalse
                exact absurd hfalse (by decide)
          | false =>
            have hg : authGuard ⟨false, true, some ⟨some e⟩⟩ = GuardView.accessDenied := by
              simp [authGuard, he', hall]
            rw [hg]
            constructor
            · constructor
              · intro hcon
                exact absurd hcon (by decide)
              · rintro ⟨-, hor⟩
                rcases hor with habs | ⟨⟨em'⟩, e', hu', he'', -, d, hd, hdom⟩
                · have habs' : e = "" := habs
                  exact absurd habs' he
                · have h1 : some e = em' := by simpa using hu'
                  subst h1
                  have h2 : e = e' := by simpa using he''
                  subst h2
                  have htrue : isAllowedDomain (emailDomainOf e.data) = true :=
                    (isAllowedDomain_eq _).mpr ⟨d, hd, hdom⟩
                  rw [hall] at htrue
                  exact absurd htrue (by decide)
            · constructor
              · intro _
                exact ⟨rfl, ⟨some e⟩, e, rfl, rfl, he, hall⟩
              · intro _
                rfl

/-- C9 counterexample: for the authenticated user whose email is
`user@srsdistribution.com@attacker.com`, the guard admits (because
`split("@")[1]` is `srsdistribution.com`, an allowlisted domain), while
the claim's admission predicate — which checks the substring after the
FIRST `@`, here `srsdistribution.com@attacker.com` — denies, so the
claimed iff is false at this input. -/
theorem authGuard_claim_counterexample :
    authGuard cexAuthState = GuardView.content ∧
    claimC9Admits cexAuthState = false := by
  constructor <;> rfl

/-- C9 witness: the amended characterization applied to the concrete
state of an authenticated user with email `dev@instalily.ai`, whose
hypothesis (loading finished) is discharged by `rfl`: the guard renders
the content. -/
theorem authGuard_admission_witness :
    authGuard { isLoading := false, isAuthenticated := true,
                user := some { email := some "dev@instalily.ai" } }
      = GuardView.content := by
  have h := authGuard_admission
    { isLoading := false, isAuthenticated := true,
      user := some { email := some "dev@instalily.ai" } } rfl
  exact h.1.mpr ⟨rfl, Or.inr ⟨⟨some "dev@instalily.ai"⟩, "dev@instalily.ai", rfl, rfl,
    by decide, "instalily.ai", by decide, by decide⟩⟩

/-- C2: the aggregate fast-KPI operation requests exactly the ten
non-classification KPI endpoints — session metrics, volume trends, user
engagement, user retention, query categories, returning-user behavior,
user segmentation, time patterns, conversation length, platform
analytics — and neither pain-point clustering nor sentiment analysis; the
dashboard's fetch effect issues the ten fast requests first and the
clustering and sentiment requests only afterwards, and the fast-KPI data
it stores is exactly the fast aggregate's result, independent of the
classifier-backed operations' outcomes. -/
theorem fast_slow_decoupled {R : Type} (net : String → Option R)
    (f : AnalyticsFilters) :
    fastKPIPaths = ["session-metrics", "volume-trends", "user-engagement",
      "user-retention", "query-categories", "returning-user-behavior",
      "user-segmentation", "time-patterns", "conversation-length",
      "platform-analytics"] ∧
    "pain-point-clustering" ∉ fastKPIPaths ∧
    "sentiment-analysis" ∉ fastKPIPaths ∧
    (∃ rest, (fetchData net f).requests = fastKPIUrls f ++ rest ∧
      (rest = [] ∨ rest = [analyticsUrl "pain-point-clustering" f] ∨
        rest = [analyticsUrl "pain-point-clustering" f,
                analyticsUrl "sentiment-analysis" f])) ∧
    (fetchData net f).state.data = exceptOk (fetchAllFastKPIs net f) := by
  refine ⟨rfl, by decide, by decide, ?_, ?_⟩
  · cases hfast : fetchAllFastKPIs net f with
    | error msg => exact ⟨[], by simp [fetchData, hfast], Or.inl rfl⟩
    | ok fast =>
      cases hc : fetchPainPointClustering net f with
      | error m =>
        exact ⟨[analyticsUrl "pain-point-clustering" f],
          by simp [fetchData, hfast, hc], Or.inr (Or.inl rfl)⟩
      | ok c =>
        cases hs : fetchSentimentAnalysis net f with
        | error m =>
          exact ⟨[analyticsUrl "pain-point-clustering" f,
                  analyticsUrl "sentiment-analysis" f],
            by simp [fetchData, hfast, hc, hs], Or.inr (Or.inr rfl)⟩
        | ok sen =>
          exact ⟨[analyticsUrl "pain-point-clustering" f,
                  analyticsUrl "sentiment-analysis" f],
            by simp [fetchData, hfast, hc, hs], Or.inr (Or.inr rfl)⟩
  · cases hfast : fetchAllFastKPIs net f with
    | error msg => simp [fetchData, hfast, exceptOk]
    | ok fast =>
      cases hc : fetchPainPointClustering net f with
      | error m => simp [fetchData, hfast, hc, exceptOk]
      | ok c =>
        cases hs : fetchSentimentAnalysis net f with
        | error m => simp [fetchData, hfast, hc, hs, exceptOk]
        | ok sen => simp [fetchData, hfast, hc, hs, exceptOk]

/-- C2 witness: the aggregate operation's endpoint list does not contain
the pain-point-clustering endpoint, read off from the theorem applied at
a concrete oracle and the dashboard's default filters. -/
theorem fast_slow_decoupled_witness :
    "pain-point-clustering" ∉ fastKPIPaths :=
  (fast_slow_decoupled (fun _ => (some 0 : Option Nat)) cexFilters).2.1

/-- C1 counterexample: on an oracle where only the session-metrics
response fails while every sibling (volume trends shown explicitly)
answers successfully, the dashboard's fetch effect ends with no fast-KPI
data at all — the `Promise.all` aggregate rejects and the successful
sibling responses are discarded — refuting the claim that a failure of
one of the ten fast-KPI fetches does not abort or discard the results of
the others. -/
theorem fast_kpi_failure_discards_siblings :
    cexNetFastFail (analyticsUrl "volume-trends" cexFilters) = some 0 ∧
    (fetchData cexNetFastFail cexFilters).state.data = none ∧
    (fetchData cexNetFastFail cexFilters).state.error
      = some "Failed to fetch session metrics" := by
  refine ⟨?_, ?_, ?_⟩ <;> rfl

/-- C1 (amended): failure isolation is asymmetric.  A clustering failure
occurring after the fast aggregate succeeded leaves the already-stored
fast-KPI results in place (`data` still holds them) but stores the error
in the single shared error state and skips the sentiment request
entirely; within the fast aggregate there is no isolation: if any one of
the ten fast-KPI fetches fails, the whole aggregate rejects, no fast-KPI
data is stored, and the successful siblings' results are discarded. -/
theorem failure_isolation_amended {R : Type} (net : String → Option R)
    (f : AnalyticsFilters) :
    (∀ fast, fetchAllFastKPIs net f = Except.ok fast →
      net (analyticsUrl "pain-point-clustering" f) = none →
      (fetchData net f).state.data = some fast ∧
      (fetchData net f).state.error = some "Failed to fetch pain point clustering" ∧
      (fetchData net f).state.sentiment = none ∧
      (fetchData net f).requests
        = fastKPIUrls f ++ [analyticsUrl "pain-point-clustering" f]) ∧
    (∀ msg, fetchAllFastKPIs net f = Except.error msg →
      (fetchData net f).state.data = none ∧
      (fetchData net f).state.error = some msg) := by
  constructor
  · intro fast hfast hnet
    have hc : fetchPainPointClustering net f
        = Except.error "Failed to fetch pain point clustering" := by
      simp [fetchPainPointClustering, fetchOp, hnet]
    refine ⟨?_, ?_, ?_, ?_⟩ <;> simp [fetchData, hfast, hc]
  · intro msg hfast
    constructor <;> simp [fetchData, hfast]

set_option maxRecDepth 100000 in
/-- C1 witness: the amended isolation statement applied to the oracle on
which only the clustering response fails — the hypotheses (the fast
aggregate succeeded with all-zero payloads; the clustering response is
not ok) are discharged by `decide` — yielding that the fast data stays
stored while the shared error state holds the clustering message. -/
theorem failure_isolation_amended_witness :
    (fetchData cexNetClusterFail cexFilters).state.data
      = some ⟨0, 0, 0, 0, 0, 0, 0, 0, 0, 0⟩ ∧
    (fetchData cexNetClusterFail cexFilters).state.error
      = some "Failed to fetch pain point clustering" := by
  have h := (failure_isolation_amended cexNetClusterFail cexFilters).1
    ⟨0, 0, 0, 0, 0, 0, 0, 0, 0, 0⟩ (by rfl) (by rfl)
  exact ⟨h.1, h.2.1⟩

set_option maxRecDepth 100000 in
/-- C3 counterexample: on an oracle where the ten fast KPIs succeed and
only the clustering fetch fails, the fast-KPI data is present in the
component state, yet the component renders the full-screen error view —
the whole response is treated as failed instead of degrading only the
classification-backed portion — refuting the claim that the caller
distinguishes the failure kinds and degrades only that portion. -/
theorem clustering_failure_fails_whole_view :
    (fetchData cexNetClusterFail cexFilters).state.data.isSome = true ∧
    render (fetchData cexNetClusterFail cexFilters).state
      = HomeView.errorScreen "Failed to fetch pain point clustering" := by
  refine ⟨?_, ?_⟩ <;> rfl

/-- C3 (amended): a clustering-batch failure is surfaced as a thrown
`Error` whose fixed message names the clustering operation and differs
from every data-fetch message (the twelve fetch messages are pairwise
distinct), so the failure kinds are distinguishable only by message text;
the caller does not degrade only the classification-backed portion: the
handler stores any failure in the single shared error state, and the
error view replaces the entire dashboard even though the fast-KPI data is
still stored. -/
theorem classification_error_surfacing {R : Type} (net : String → Option R)
    (f : AnalyticsFilters) :
    fetchFailMessages.Nodup ∧
    "Failed to fetch pain point clustering" ∈ fetchFailMessages ∧
    (∀ fast, fetchAllFastKPIs net f = Except.ok fast →
      net (analyticsUrl "pain-point-clustering" f) = none →
      (fetchData net f).state.error
          = some "Failed to fetch pain point clustering" ∧
      render (fetchData net f).state
          = HomeView.errorScreen "Failed to fetch pain point clustering") := by
  refine ⟨by decide, by decide, ?_⟩
  intro fast hfast hnet
  have hc : fetchPainPointClustering net f
      = Except.error "Failed to fetch pain point clustering" := by
    simp [fetchPainPointClustering, fetchOp, hnet]
  constructor
  · simp [fetchData, hfast, hc]
  · simp [fetchData, hfast, hc, render]

set_option maxRecDepth 100000 in
/-- C3 witness: the amended surfacing statement applied to the oracle on
which only the clustering response fails, hypotheses discharged by
`decide`: the rendered view is the full-screen error naming the
clustering fetch. -/
theorem classification_error_surfacing_witness :
    render (fetchData cexNetClusterFail cexFilters).state
      = HomeView.errorScreen "Failed to fetch pain point clustering" :=
  ((classification_error_surfacing cexNetClusterFail cexFilters).2.2
    ⟨0, 0, 0, 0, 0, 0, 0, 0, 0, 0⟩ (by rfl) (by rfl)).2
